import Mathlib

/-!
A shallow embedding of the data-processing pipeline of the marketing
intelligence dashboard (scripts/data_processor.py, scripts/metrics_calculator.py,
main.py), together with theorems settling the claims about it.

Numeric columns are modelled as rationals.  Division results are modelled by
the type PFloat, which keeps track of the IEEE-754 special values that numpy
produces on division by zero (0/0 = NaN, x/0 = plus or minus infinity): this
is what distinguishes the zero-guarded ratio computations of the data
processor from the unguarded ones of the metrics calculator.
-/

namespace BIDashboard

/-- Result of a float computation: a finite rational or an IEEE special value. -/
inductive PFloat where
  | fin (q : ℚ)
  | nan
  | inf
  | neginf
deriving DecidableEq

/-- Whether a float result is finite (not NaN and not an infinity). -/
def PFloat.isFin : PFloat → Bool
  | .fin _ => true
  | _ => false

/-- Semantics of numpy float division on finite operands: division by zero
yields NaN (for 0/0) or a signed infinity, never an exception. -/
def pdiv (a b : ℚ) : PFloat :=
  if b = 0 then
    if a = 0 then .nan else if 0 < a then .inf else .neginf
  else .fin (a / b)

/-- Multiplication of a float result by the positive constant 100
(as in the percentage scaling of ctr and gross margin). -/
def PFloat.mul100 : PFloat → PFloat
  | .fin q => .fin (q * 100)
  | x => x

/-- Floor of a rational, computed from its reduced fraction: the denominator
is positive, so Euclidean division of the numerator by it is the floor. -/
def ratFloor (q : ℚ) : ℤ := q.num / q.den

/-- Rounding of a rational to the nearest integer, ties to even
(the rounding mode of numpy round). -/
def roundHalfEven (q : ℚ) : ℤ :=
  if q - (ratFloor q : ℚ) < 1 / 2 then ratFloor q
  else if 1 / 2 < q - (ratFloor q : ℚ) then ratFloor q + 1
  else if ratFloor q % 2 = 0 then ratFloor q else ratFloor q + 1

/-- Semantics of pandas Series.round(2): finite values are rounded to two
decimal places, special values are preserved. -/
def PFloat.round2 : PFloat → PFloat
  | .fin q => .fin ((roundHalfEven (q * 100) : ℚ) / 100)
  | x => x

/-- Semantics of np.where(cond, x, y) at a single cell.  Both branches are
float results; the condition selects one of them. -/
def npWhere (c : Prop) [Decidable c] (x y : PFloat) : PFloat :=
  if c then x else y

/-! Zero-guarded ratio formulas, exactly as they appear in
data_processor.clean_marketing_data, clean_business_data,
aggregate_marketing_data, combine_data and in main.process_data. -/

/-- ctr = np.where(impressions > 0, clicks / impressions * 100, 0). -/
def ctrOf (clicks impressions : ℚ) : PFloat :=
  npWhere (0 < impressions) ((pdiv clicks impressions).mul100) (.fin 0)

/-- cpc = np.where(clicks > 0, spend / clicks, 0). -/
def cpcOf (spend clicks : ℚ) : PFloat :=
  npWhere (0 < clicks) (pdiv spend clicks) (.fin 0)

/-- roas = np.where(spend > 0, attributed_revenue / spend, 0). -/
def roasOf (attributed_revenue spend : ℚ) : PFloat :=
  npWhere (0 < spend) (pdiv attributed_revenue spend) (.fin 0)

/-- aov = np.where(orders > 0, total_revenue / orders, 0). -/
def aovOf (total_revenue orders : ℚ) : PFloat :=
  npWhere (0 < orders) (pdiv total_revenue orders) (.fin 0)

/-- gross_margin = np.where(total_revenue > 0, gross_profit / total_revenue * 100, 0). -/
def grossMarginOf (gross_profit total_revenue : ℚ) : PFloat :=
  npWhere (0 < total_revenue) ((pdiv gross_profit total_revenue).mul100) (.fin 0)

/-- marketing_efficiency = np.where(spend > 0, total_revenue / spend, 0). -/
def marketingEfficiencyOf (total_revenue spend : ℚ) : PFloat :=
  npWhere (0 < spend) (pdiv total_revenue spend) (.fin 0)

/-- cpa = np.where(new_customers > 0, spend / new_customers, 0). -/
def cpaOf (spend new_customers : ℚ) : PFloat :=
  npWhere (0 < new_customers) (pdiv spend new_customers) (.fin 0)

/-! Row types.  A raw cell read from a CSV file is an Option: none models a
missing or unparseable value (NaN), which pd.to_numeric(errors=coerce)
followed by fillna(0) turns into 0, and which fillna("Unknown") turns into
"Unknown" for the text columns. -/

/-- One row of a channel CSV file before the channel tag is added. -/
structure MRowFile where
  date : ℕ
  tactic : Option String
  state : Option String
  campaign : Option String
  impressions : Option ℚ
  clicks : Option ℚ
  spend : Option ℚ
  attributed_revenue : Option ℚ
deriving DecidableEq

/-- One row of the concatenated marketing DataFrame after loading:
the channel tag has been added, the numeric cells are still raw. -/
structure MRow where
  date : ℕ
  channel : String
  tactic : Option String
  state : Option String
  campaign : Option String
  impressions : Option ℚ
  clicks : Option ℚ
  spend : Option ℚ
  attributed_revenue : Option ℚ
deriving DecidableEq

/-- Tagging a channel feed with its source, as in facebook_df["channel"] = "Facebook". -/
def tagChannel (ch : String) (rows : List MRowFile) : List MRow :=
  rows.map (fun r =>
    { date := r.date, channel := ch, tactic := r.tactic, state := r.state,
      campaign := r.campaign, impressions := r.impressions, clicks := r.clicks,
      spend := r.spend, attributed_revenue := r.attributed_revenue })

/-- One row of the marketing DataFrame after clean_marketing_data: numeric
columns coerced and filled with 0, text columns filled with "Unknown", and
the derived metric columns ctr, cpc, roas added. -/
structure CleanMRow where
  date : ℕ
  channel : String
  tactic : String
  state : String
  campaign : String
  impressions : ℚ
  clicks : ℚ
  spend : ℚ
  attributed_revenue : ℚ
  ctr : PFloat
  cpc : PFloat
  roas : PFloat
deriving DecidableEq

/-- Row-wise semantics of DataProcessor.clean_marketing_data (and of the
identical marketing-metric derivation in main.process_data). -/
def cleanMarketingRow (r : MRow) : CleanMRow :=
  let impressions := r.impressions.getD 0
  let clicks := r.clicks.getD 0
  let spend := r.spend.getD 0
  let attributed_revenue := r.attributed_revenue.getD 0
  { date := r.date
    channel := r.channel
    tactic := r.tactic.getD "Unknown"
    state := r.state.getD "Unknown"
    campaign := r.campaign.getD "Unknown"
    impressions := impressions
    clicks := clicks
    spend := spend
    attributed_revenue := attributed_revenue
    ctr := ctrOf clicks impressions
    cpc := cpcOf spend clicks
    roas := roasOf attributed_revenue spend }

/-- One row of the business CSV file, raw. -/
structure BRow where
  date : ℕ
  orders : Option ℚ
  new_orders : Option ℚ
  new_customers : Option ℚ
  total_revenue : Option ℚ
  gross_profit : Option ℚ
  cogs : Option ℚ
deriving DecidableEq

/-- One row of the business DataFrame after clean_business_data: numeric
columns coerced and filled with 0, and the derived columns aov,
gross_margin, repeat_orders added. -/
structure CleanBRow where
  date : ℕ
  orders : ℚ
  new_orders : ℚ
  new_customers : ℚ
  total_revenue : ℚ
  gross_profit : ℚ
  cogs : ℚ
  aov : PFloat
  gross_margin : PFloat
  repeat_orders : ℚ
deriving DecidableEq

/-- Row-wise semantics of DataProcessor.clean_business_data. -/
def cleanBusinessRow (r : BRow) : CleanBRow :=
  let orders := r.orders.getD 0
  let new_orders := r.new_orders.getD 0
  let new_customers := r.new_customers.getD 0
  let total_revenue := r.total_revenue.getD 0
  let gross_profit := r.gross_profit.getD 0
  let cogs := r.cogs.getD 0
  { date := r.date
    orders := orders
    new_orders := new_orders
    new_customers := new_customers
    total_revenue := total_revenue
    gross_profit := gross_profit
    cogs := cogs
    aov := aovOf total_revenue orders
    gross_margin := grossMarginOf gross_profit total_revenue
    repeat_orders := orders - new_orders }

/-! Aggregation and join.  A pandas groupby with a sum aggregation produces
one row per distinct key, holding the sums over the rows with that key. -/

/-- One row of the date-aggregated marketing DataFrame produced by
DataProcessor.aggregate_marketing_data (and by the identical aggregation
in main.process_data). -/
structure DailyMarketing where
  date : ℕ
  impressions : ℚ
  clicks : ℚ
  spend : ℚ
  attributed_revenue : ℚ
  ctr : PFloat
  cpc : PFloat
  roas : PFloat
deriving DecidableEq

/-- Sum of a numeric column over the marketing rows of a given date. -/
def sumOver (rows : List CleanMRow) (d : ℕ) (f : CleanMRow → ℚ) : ℚ :=
  ((rows.filter (fun r => r.date = d)).map f).sum

/-- The aggregate row the date groupby produces for one date: the four base
columns summed over all rows (campaigns and channels) of that date, and the
daily ratios recomputed from those sums with the usual zero guards. -/
def dailyMarketingFor (rows : List CleanMRow) (d : ℕ) : DailyMarketing :=
  { date := d
    impressions := sumOver rows d (fun r => r.impressions)
    clicks := sumOver rows d (fun r => r.clicks)
    spend := sumOver rows d (fun r => r.spend)
    attributed_revenue := sumOver rows d (fun r => r.attributed_revenue)
    ctr := ctrOf (sumOver rows d (fun r => r.clicks))
      (sumOver rows d (fun r => r.impressions))
    cpc := cpcOf (sumOver rows d (fun r => r.spend))
      (sumOver rows d (fun r => r.clicks))
    roas := roasOf (sumOver rows d (fun r => r.attributed_revenue))
      (sumOver rows d (fun r => r.spend)) }

/-- Semantics of DataProcessor.aggregate_marketing_data: group the marketing
rows by date, sum impressions, clicks, spend and attributed_revenue, then
recompute ctr, cpc, roas from the daily sums. -/
def aggregate_marketing_data (rows : List CleanMRow) : List DailyMarketing :=
  ((rows.map (fun r => r.date)).dedup).map (dailyMarketingFor rows)

/-- One row of the combined DataFrame produced by DataProcessor.combine_data. -/
structure CombinedRow where
  date : ℕ
  orders : ℚ
  new_orders : ℚ
  new_customers : ℚ
  total_revenue : ℚ
  gross_profit : ℚ
  cogs : ℚ
  aov : PFloat
  gross_margin : PFloat
  repeat_orders : ℚ
  impressions : ℚ
  clicks : ℚ
  spend : ℚ
  attributed_revenue : ℚ
  ctr : PFloat
  cpc : PFloat
  roas : PFloat
  marketing_efficiency : PFloat
  cpa : PFloat
deriving DecidableEq

/-- Building one combined row from a business row and the matching daily
marketing aggregate, when there is one.  When there is none, the left join
leaves the marketing columns as NaN and the subsequent fillna(0) turns them
into 0.  marketing_efficiency and cpa are then derived with the usual
zero guards. -/
def mkCombinedRow (b : CleanBRow) (m : Option DailyMarketing) : CombinedRow :=
  let impressions := match m with | some dm => dm.impressions | none => 0
  let clicks := match m with | some dm => dm.clicks | none => 0
  let spend := match m with | some dm => dm.spend | none => 0
  let attributed_revenue := match m with | some dm => dm.attributed_revenue | none => 0
  let ctr := match m with | some dm => dm.ctr | none => .fin 0
  let cpc := match m with | some dm => dm.cpc | none => .fin 0
  let roas := match m with | some dm => dm.roas | none => .fin 0
  { date := b.date
    orders := b.orders
    new_orders := b.new_orders
    new_customers := b.new_customers
    total_revenue := b.total_revenue
    gross_profit := b.gross_profit
    cogs := b.cogs
    aov := b.aov
    gross_margin := b.gross_margin
    repeat_orders := b.repeat_orders
    impressions := impressions
    clicks := clicks
    spend := spend
    attributed_revenue := attributed_revenue
    ctr := ctr
    cpc := cpc
    roas := roas
    marketing_efficiency := marketingEfficiencyOf b.total_revenue spend
    cpa := cpaOf spend b.new_customers }

/-- The rows a single business row contributes to the left merge on date:
one row per matching daily aggregate, or a single zero-filled row when no
daily aggregate matches. -/
def leftMergeOne (daily : List DailyMarketing) (b : CleanBRow) : List CombinedRow :=
  let ms := daily.filter (fun dm => dm.date = b.date)
  if ms.isEmpty then [mkCombinedRow b none]
  else ms.map (fun dm => mkCombinedRow b (some dm))

/-- Semantics of DataProcessor.combine_data (and of the identical merge,
fillna and derivation in main.process_data): the business rows left-merged
on date with the date-aggregated marketing data. -/
def combine_data (mrows : List CleanMRow) (brows : List CleanBRow) : List CombinedRow :=
  brows.flatMap (leftMergeOne (aggregate_marketing_data mrows))

/-! The metrics calculator.  calculate_channel_metrics and
calculate_campaign_metrics divide the grouped sums WITHOUT a zero guard:
the division semantics of pdiv applies directly. -/

/-- One row of the channel metrics table of
MetricsCalculator.calculate_channel_metrics. -/
structure ChannelMetrics where
  channel : String
  impressions : ℚ
  clicks : ℚ
  spend : ℚ
  attributed_revenue : ℚ
  active_days : ℕ
  ctr : PFloat
  cpc : PFloat
  roas : PFloat
  avg_daily_spend : PFloat
deriving DecidableEq

/-- Sum of a numeric column over the marketing rows of a given channel. -/
def channelSum (rows : List CleanMRow) (ch : String) (f : CleanMRow → ℚ) : ℚ :=
  ((rows.filter (fun r => r.channel = ch)).map f).sum

/-- Number of marketing rows of a given channel (the count aggregation on
the date column, named active_days). -/
def channelCount (rows : List CleanMRow) (ch : String) : ℕ :=
  (rows.filter (fun r => r.channel = ch)).length

/-- The aggregate row the channel groupby produces for one channel. -/
def channelMetricsFor (rows : List CleanMRow) (ch : String) : ChannelMetrics :=
  { channel := ch
    impressions := channelSum rows ch (fun r => r.impressions)
    clicks := channelSum rows ch (fun r => r.clicks)
    spend := channelSum rows ch (fun r => r.spend)
    attributed_revenue := channelSum rows ch (fun r => r.attributed_revenue)
    active_days := channelCount rows ch
    ctr := ((pdiv (channelSum rows ch (fun r => r.clicks))
      (channelSum rows ch (fun r => r.impressions))).mul100).round2
    cpc := (pdiv (channelSum rows ch (fun r => r.spend))
      (channelSum rows ch (fun r => r.clicks))).round2
    roas := (pdiv (channelSum rows ch (fun r => r.attributed_revenue))
      (channelSum rows ch (fun r => r.spend))).round2
    avg_daily_spend := (pdiv (channelSum rows ch (fun r => r.spend))
      (channelCount rows ch : ℚ)).round2 }

/-- Semantics of MetricsCalculator.calculate_channel_metrics: group by
channel, sum the four base columns, count the rows as active_days, then
derive ctr, cpc, roas and avg_daily_spend by unguarded division rounded to
two decimals. -/
def calculate_channel_metrics (rows : List CleanMRow) : List ChannelMetrics :=
  ((rows.map (fun r => r.channel)).dedup).map (channelMetricsFor rows)

/-- One row of the campaign metrics table of
MetricsCalculator.calculate_campaign_metrics. -/
structure CampaignMetrics where
  channel : String
  campaign : String
  impressions : ℚ
  clicks : ℚ
  spend : ℚ
  attributed_revenue : ℚ
  active_days : ℕ
  ctr : PFloat
  cpc : PFloat
  roas : PFloat
deriving DecidableEq

/-- Sum of a numeric column over the marketing rows of a given
(channel, campaign) pair. -/
def campaignSum (rows : List CleanMRow) (key : String × String)
    (f : CleanMRow → ℚ) : ℚ :=
  ((rows.filter (fun r => (r.channel, r.campaign) = key)).map f).sum

/-- Number of marketing rows of a given (channel, campaign) pair. -/
def campaignCount (rows : List CleanMRow) (key : String × String) : ℕ :=
  (rows.filter (fun r => (r.channel, r.campaign) = key)).length

/-- The aggregate row the campaign groupby produces for one key. -/
def campaignMetricsFor (rows : List CleanMRow) (key : String × String) :
    CampaignMetrics :=
  { channel := key.1
    campaign := key.2
    impressions := campaignSum rows key (fun r => r.impressions)
    clicks := campaignSum rows key (fun r => r.clicks)
    spend := campaignSum rows key (fun r => r.spend)
    attributed_revenue := campaignSum rows key (fun r => r.attributed_revenue)
    active_days := campaignCount rows key
    ctr := ((pdiv (campaignSum rows key (fun r => r.clicks))
      (campaignSum rows key (fun r => r.impressions))).mul100).round2
    cpc := (pdiv (campaignSum rows key (fun r => r.spend))
      (campaignSum rows key (fun r => r.clicks))).round2
    roas := (pdiv (campaignSum rows key (fun r => r.attributed_revenue))
      (campaignSum rows key (fun r => r.spend))).round2 }

/-- Semantics of MetricsCalculator.calculate_campaign_metrics: group by
(channel, campaign), sum the four base columns, count the rows as
active_days, then derive ctr, cpc, roas by unguarded division rounded to
two decimals. -/
def calculate_campaign_metrics (rows : List CleanMRow) : List CampaignMetrics :=
  ((rows.map (fun r => (r.channel, r.campaign))).dedup).map
    (campaignMetricsFor rows)

/-! Loading and the processor state.  The four input files are modelled as a
record of optional row lists: none models a file that is absent from disk,
for which pd.read_csv raises FileNotFoundError. -/

/-- A Python exception, as far as the pipeline can raise one. -/
inductive PyErr where
  | fileNotFound
  | valueError
  | attributeError
  | typeError
deriving DecidableEq

/-- The data directory: the four CSV files the pipeline reads. -/
structure FS where
  facebook : Option (List MRowFile)
  google : Option (List MRowFile)
  tiktok : Option (List MRowFile)
  business : Option (List BRow)
deriving DecidableEq

/-- A marketing DataFrame held by the processor: either the raw concatenated
feeds or the frame enriched by clean_marketing_data. -/
inductive MarketingDF where
  | raw (rows : List MRow)
  | cleaned (rows : List CleanMRow)
deriving DecidableEq

/-- A business DataFrame held by the processor: raw or enriched. -/
inductive BusinessDF where
  | raw (rows : List BRow)
  | cleaned (rows : List CleanBRow)
deriving DecidableEq

/-- The mutable attributes of a DataProcessor instance. -/
structure PState where
  marketing_data : Option MarketingDF := none
  business_data : Option BusinessDF := none
  combined_data : Option (List CombinedRow) := none
deriving DecidableEq

/-- Semantics of DataProcessor.load_data.  The reads happen in source order
(Facebook, Google, TikTok, Business); a missing file makes the enclosing
try/except return False, with exactly the attribute assignments that
happened before the failing read (marketing_data is assigned after the
three channel reads, business_data after the business read). -/
def load_data (fs : FS) (st : PState) : PState × Bool :=
  match fs.facebook with
  | none => (st, false)
  | some fb =>
    match fs.google with
    | none => (st, false)
    | some gg =>
      match fs.tiktok with
      | none => (st, false)
      | some tk =>
        let allRows := tagChannel "Facebook" fb ++ tagChannel "Google" gg ++
          tagChannel "TikTok" tk
        let st1 := { st with marketing_data := some (.raw allRows) }
        match fs.business with
        | none => (st1, false)
        | some bz => ({ st1 with business_data := some (.raw bz) }, true)

/-- Recomputing the derived metric columns of an already-enriched marketing
row: running clean_marketing_data a second time coerces already-numeric
columns and fills already-filled cells without change, then recomputes the
metrics from the same base columns. -/
def recleanMRow (r : CleanMRow) : CleanMRow :=
  { r with
    ctr := ctrOf r.clicks r.impressions
    cpc := cpcOf r.spend r.clicks
    roas := roasOf r.attributed_revenue r.spend }

/-- Semantics of DataProcessor.clean_marketing_data as a state transition:
with marketing_data still None it raises ValueError before touching any
attribute; otherwise it replaces marketing_data with the enriched frame. -/
def clean_marketing_data (st : PState) : PState × Option PyErr :=
  match st.marketing_data with
  | none => (st, some .valueError)
  | some (.raw rows) =>
    ({ st with marketing_data := some (.cleaned (rows.map cleanMarketingRow)) }, none)
  | some (.cleaned rows) =>
    ({ st with marketing_data := some (.cleaned (rows.map recleanMRow)) }, none)

/-- Recomputing the derived columns of an already-enriched business row. -/
def recleanBRow (r : CleanBRow) : CleanBRow :=
  { r with
    aov := aovOf r.total_revenue r.orders
    gross_margin := grossMarginOf r.gross_profit r.total_revenue
    repeat_orders := r.orders - r.new_orders }

/-- Semantics of DataProcessor.clean_business_data as a state transition:
with business_data still None it raises ValueError before touching any
attribute; otherwise it replaces business_data with the enriched frame. -/
def clean_business_data (st : PState) : PState × Option PyErr :=
  match st.business_data with
  | none => (st, some .valueError)
  | some (.raw rows) =>
    ({ st with business_data := some (.cleaned (rows.map cleanBusinessRow)) }, none)
  | some (.cleaned rows) =>
    ({ st with business_data := some (.cleaned (rows.map recleanBRow)) }, none)

/-- Semantics of DataProcessor.combine_data as a state transition.  The
pipeline only reaches it with both frames loaded and enriched; accessing a
frame that is still None raises AttributeError inside pandas.  Combining
frames that were loaded but never enriched is not exercised by the pipeline
and is modelled as a TypeError. -/
def combine_data_state (st : PState) : PState × Option PyErr :=
  match st.marketing_data, st.business_data with
  | some (.cleaned mrows), some (.cleaned brows) =>
    ({ st with combined_data := some (combine_data mrows brows) }, none)
  | none, _ => (st, some .attributeError)
  | _, none => (st, some .attributeError)
  | _, _ => (st, some .typeError)

/-- Semantics of DataProcessor.process_all: load, and on failure return
False at once; otherwise clean both frames and combine, propagating any
exception. -/
def process_all (fs : FS) (st : PState) : PState × Except PyErr Bool :=
  let (st1, ok) := load_data fs st
  if ok then
    let (st2, e2) := clean_marketing_data st1
    match e2 with
    | some e => (st2, .error e)
    | none =>
      let (st3, e3) := clean_business_data st2
      match e3 with
      | some e => (st3, .error e)
      | none =>
        let (st4, e4) := combine_data_state st3
        match e4 with
        | some e => (st4, .error e)
        | none => (st4, .ok true)
  else (st1, .ok false)

/-- Semantics of main.load_real_data: read the four files, tag the channel
feeds, rename the vendor columns, concatenate; on any missing file report
the error and return (None, None). -/
def load_real_data (fs : FS) : Option (List MRow) × Option (List BRow) :=
  match fs.facebook, fs.google, fs.tiktok, fs.business with
  | some fb, some gg, some tk, some bz =>
    (some (tagChannel "Facebook" fb ++ tagChannel "Google" gg ++
           tagChannel "TikTok" tk), some bz)
  | _, _, _, _ => (none, none)

/-! Column-name semantics of the two load paths.  A DataFrame column set is
modelled as a list of column names; renaming maps each name through the
mapping dictionary, leaving unmapped names unchanged. -/

/-- The marketing_column_mapping dictionary of main.load_real_data, as the
renaming function pandas derives from it. -/
def marketing_column_mapping (c : String) : String :=
  if c = "impression" then "impressions"
  else if c = "attributed revenue" then "attributed_revenue"
  else c

/-- The business_column_mapping dictionary of main.load_real_data. -/
def business_column_mapping (c : String) : String :=
  if c = "# of orders" then "orders"
  else if c = "# of new orders" then "new_orders"
  else if c = "total revenue" then "total_revenue"
  else if c = "gross profit" then "gross_profit"
  else if c = "new customers" then "new_customers"
  else if c = "COGS" then "cogs"
  else c

/-- Columns of each channel frame after main.load_real_data: the channel tag
is added and then every column is renamed through the mapping. -/
def load_real_data_marketing_columns (cols : List String) : List String :=
  (cols ++ ["channel"]).map marketing_column_mapping

/-- Columns of the business frame after main.load_real_data. -/
def load_real_data_business_columns (cols : List String) : List String :=
  cols.map business_column_mapping

/-- Columns of each channel frame after DataProcessor.load_data: the channel
tag is added and no renaming of any kind is performed. -/
def load_data_marketing_columns (cols : List String) : List String :=
  cols ++ ["channel"]

/-- Columns of the business frame after DataProcessor.load_data: unchanged. -/
def load_data_business_columns (cols : List String) : List String :=
  cols

/-! Concrete inputs used by witnesses and counterexamples. -/

/-- A raw marketing row with a positive impression count, positive clicks,
zero spend, and a missing attributed revenue cell. -/
def mRowEx : MRow :=
  { date := 1, channel := "Google", tactic := none, state := none,
    campaign := some "Search", impressions := some 200, clicks := some 10,
    spend := some 0, attributed_revenue := none }

/-- A raw business row whose new_orders exceeds orders and whose
total_revenue is zero. -/
def bRowEx : BRow :=
  { date := 2, orders := some 4, new_orders := some 6, new_customers := none,
    total_revenue := some 0, gross_profit := some 5, cogs := none }

/-- A fresh DataProcessor state: nothing loaded yet. -/
def emptyPState : PState := {}

/-- The vendor column names of a channel feed, as the renaming dictionary of
main.load_real_data expects them. -/
def facebookRawColumns : List String :=
  ["date", "tactic", "state", "campaign", "impression", "clicks", "spend",
   "attributed revenue"]

/-- A data directory in which the business feed is missing. -/
def fsMissingBusiness : FS :=
  { facebook := some [], google := some [], tiktok := some [], business := none }

/-- A marketing row whose numeric cells are all zero. -/
def zeroMRow : MRow :=
  { date := 0, channel := "Facebook", tactic := none, state := none,
    campaign := some "Camp", impressions := some 0, clicks := some 0,
    spend := some 0, attributed_revenue := some 0 }

/-- The cleaned marketing data consisting of the single all-zero row. -/
def zeroRowsEx : List CleanMRow := [cleanMarketingRow zeroMRow]

/-- First of two campaigns reported on the same date. -/
def mRow2 : MRow :=
  { date := 7, channel := "Facebook", tactic := some "ASC", state := some "NY",
    campaign := some "A", impressions := some 100, clicks := some 10,
    spend := some 50, attributed_revenue := some 100 }

/-- Second campaign on the same date as mRow2, on another channel. -/
def mRow3 : MRow :=
  { date := 7, channel := "Google", tactic := some "Search", state := some "CA",
    campaign := some "B", impressions := some 300, clicks := some 20,
    spend := some 150, attributed_revenue := some 500 }

/-- Cleaned marketing data with two campaigns on one date. -/
def marketingRowsEx : List CleanMRow := [cleanMarketingRow mRow2, cleanMarketingRow mRow3]

/-- The daily aggregate the groupby produces for date 7 of marketingRowsEx. -/
def dmEx : DailyMarketing := dailyMarketingFor marketingRowsEx 7

/-- A business row on a date with no marketing activity in marketingRowsEx. -/
def bRowLate : BRow :=
  { date := 9, orders := some 5, new_orders := some 2, new_customers := some 0,
    total_revenue := some 40, gross_profit := some 10, cogs := some 30 }

/-- Cleaned business data consisting of the single late row. -/
def businessRowsEx : List CleanBRow := [cleanBusinessRow bRowLate]

/-- The combined row produced for bRowLate: the left join finds no marketing
aggregate for date 9, so the marketing columns are zero-filled. -/
def cEx : CombinedRow := mkCombinedRow (cleanBusinessRow bRowLate) none

/-! Helper lemmas about the division semantics. -/

theorem pdiv_pos (a b : ℚ) (h : 0 < b) : pdiv a b = .fin (a / b) := by
  simp [pdiv, h.ne']

theorem pdiv_zero_isFin_false (a : ℚ) : (pdiv a 0).isFin = false := by
  rcases lt_trichotomy a 0 with h | h | h
  · simp [pdiv, h.ne, not_lt.mpr h.le, PFloat.isFin]
  · simp [pdiv, h, PFloat.isFin]
  · simp [pdiv, h.ne', h, PFloat.isFin]

theorem mul100_isFin (x : PFloat) : x.mul100.isFin = x.isFin := by
  cases x <;> rfl

theorem round2_isFin (x : PFloat) : x.round2.isFin = x.isFin := by
  cases x <;> rfl

theorem ctrOf_pos (clicks impressions : ℚ) (h : 0 < impressions) :
    ctrOf clicks impressions = .fin (clicks / impressions * 100) := by
  simp [ctrOf, npWhere, h, pdiv_pos _ _ h, PFloat.mul100]

theorem ctrOf_nonpos (clicks impressions : ℚ) (h : impressions ≤ 0) :
    ctrOf clicks impressions = .fin 0 := by
  simp [ctrOf, npWhere, not_lt.mpr h]

theorem ctrOf_isFin (clicks impressions : ℚ) : (ctrOf clicks impressions).isFin = true := by
  by_cases h : 0 < impressions
  · simp [ctrOf_pos _ _ h, PFloat.isFin]
  · simp [ctrOf_nonpos _ _ (not_lt.mp h), PFloat.isFin]

theorem cpcOf_pos (spend clicks : ℚ) (h : 0 < clicks) :
    cpcOf spend clicks = .fin (spend / clicks) := by
  simp [cpcOf, npWhere, h, pdiv_pos _ _ h]

theorem cpcOf_nonpos (spend clicks : ℚ) (h : clicks ≤ 0) :
    cpcOf spend clicks = .fin 0 := by
  simp [cpcOf, npWhere, not_lt.mpr h]

theorem cpcOf_isFin (spend clicks : ℚ) : (cpcOf spend clicks).isFin = true := by
  by_cases h : 0 < clicks
  · simp [cpcOf_pos _ _ h, PFloat.isFin]
  · simp [cpcOf_nonpos _ _ (not_lt.mp h), PFloat.isFin]

theorem roasOf_pos (attributed_revenue spend : ℚ) (h : 0 < spend) :
    roasOf attributed_revenue spend = .fin (attributed_revenue / spend) := by
  simp [roasOf, npWhere, h, pdiv_pos _ _ h]

theorem roasOf_nonpos (attributed_revenue spend : ℚ) (h : spend ≤ 0) :
    roasOf attributed_revenue spend = .fin 0 := by
  simp [roasOf, npWhere, not_lt.mpr h]

theorem roasOf_isFin (attributed_revenue spend : ℚ) :
    (roasOf attributed_revenue spend).isFin = true := by
  by_cases h : 0 < spend
  · simp [roasOf_pos _ _ h, PFloat.isFin]
  · simp [roasOf_nonpos _ _ (not_lt.mp h), PFloat.isFin]

theorem aovOf_pos (total_revenue orders : ℚ) (h : 0 < orders) :
    aovOf total_revenue orders = .fin (total_revenue / orders) := by
  simp [aovOf, npWhere, h, pdiv_pos _ _ h]

theorem aovOf_nonpos (total_revenue orders : ℚ) (h : orders ≤ 0) :
    aovOf total_revenue orders = .fin 0 := by
  simp [aovOf, npWhere, not_lt.mpr h]

theorem aovOf_isFin (total_revenue orders : ℚ) : (aovOf total_revenue orders).isFin = true := by
  by_cases h : 0 < orders
  · simp [aovOf_pos _ _ h, PFloat.isFin]
  · simp [aovOf_nonpos _ _ (not_lt.mp h), PFloat.isFin]

theorem grossMarginOf_pos (gross_profit total_revenue : ℚ) (h : 0 < total_revenue) :
    grossMarginOf gross_profit total_revenue = .fin (gross_profit / total_revenue * 100) := by
  simp [grossMarginOf, npWhere, h, pdiv_pos _ _ h, PFloat.mul100]

theorem grossMarginOf_nonpos (gross_profit total_revenue : ℚ) (h : total_revenue ≤ 0) :
    grossMarginOf gross_profit total_revenue = .fin 0 := by
  simp [grossMarginOf, npWhere, not_lt.mpr h]

theorem grossMarginOf_isFin (gross_profit total_revenue : ℚ) :
    (grossMarginOf gross_profit total_revenue).isFin = true := by
  by_cases h : 0 < total_revenue
  · simp [grossMarginOf_pos _ _ h, PFloat.isFin]
  · simp [grossMarginOf_nonpos _ _ (not_lt.mp h), PFloat.isFin]

theorem marketingEfficiencyOf_pos (total_revenue spend : ℚ) (h : 0 < spend) :
    marketingEfficiencyOf total_revenue spend = .fin (total_revenue / spend) := by
  simp [marketingEfficiencyOf, npWhere, h, pdiv_pos _ _ h]

theorem marketingEfficiencyOf_nonpos (total_revenue spend : ℚ) (h : spend ≤ 0) :
    marketingEfficiencyOf total_revenue spend = .fin 0 := by
  simp [marketingEfficiencyOf, npWhere, not_lt.mpr h]

theorem marketingEfficiencyOf_isFin (total_revenue spend : ℚ) :
    (marketingEfficiencyOf total_revenue spend).isFin = true := by
  by_cases h : 0 < spend
  · simp [marketingEfficiencyOf_pos _ _ h, PFloat.isFin]
  · simp [marketingEfficiencyOf_nonpos _ _ (not_lt.mp h), PFloat.isFin]

theorem cpaOf_pos (spend new_customers : ℚ) (h : 0 < new_customers) :
    cpaOf spend new_customers = .fin (spend / new_customers) := by
  simp [cpaOf, npWhere, h, pdiv_pos _ _ h]

theorem cpaOf_nonpos (spend new_customers : ℚ) (h : new_customers ≤ 0) :
    cpaOf spend new_customers = .fin 0 := by
  simp [cpaOf, npWhere, not_lt.mpr h]

theorem cpaOf_isFin (spend new_customers : ℚ) : (cpaOf spend new_customers).isFin = true := by
  by_cases h : 0 < new_customers
  · simp [cpaOf_pos _ _ h, PFloat.isFin]
  · simp [cpaOf_nonpos _ _ (not_lt.mp h), PFloat.isFin]

/-- Claim C4: for every cleaned marketing row, ctr = clicks/impressions*100,
cpc = spend/clicks, roas = attributed_revenue/spend, and each equals 0
whenever its denominator is non-positive. -/
theorem clean_marketing_row_metrics (r : MRow) :
    (0 < (cleanMarketingRow r).impressions →
      (cleanMarketingRow r).ctr =
        .fin ((cleanMarketingRow r).clicks / (cleanMarketingRow r).impressions * 100)) ∧
    ((cleanMarketingRow r).impressions ≤ 0 → (cleanMarketingRow r).ctr = .fin 0) ∧
    (0 < (cleanMarketingRow r).clicks →
      (cleanMarketingRow r).cpc =
        .fin ((cleanMarketingRow r).spend / (cleanMarketingRow r).clicks)) ∧
    ((cleanMarketingRow r).clicks ≤ 0 → (cleanMarketingRow r).cpc = .fin 0) ∧
    (0 < (cleanMarketingRow r).spend →
      (cleanMarketingRow r).roas =
        .fin ((cleanMarketingRow r).attributed_revenue / (cleanMarketingRow r).spend)) ∧
    ((cleanMarketingRow r).spend ≤ 0 → (cleanMarketingRow r).roas = .fin 0) :=
  ⟨fun h => ctrOf_pos _ _ h, fun h => ctrOf_nonpos _ _ h,
   fun h => cpcOf_pos _ _ h, fun h => cpcOf_nonpos _ _ h,
   fun h => roasOf_pos _ _ h, fun h => roasOf_nonpos _ _ h⟩

/-- Witness for C4 at a concrete row: positive impressions and clicks take
the ratio branch, zero spend takes the zero branch. -/
theorem clean_marketing_row_metrics_witness :
    (cleanMarketingRow mRowEx).ctr =
      .fin ((cleanMarketingRow mRowEx).clicks / (cleanMarketingRow mRowEx).impressions * 100) ∧
    (cleanMarketingRow mRowEx).cpc =
      .fin ((cleanMarketingRow mRowEx).spend / (cleanMarketingRow mRowEx).clicks) ∧
    (cleanMarketingRow mRowEx).roas = .fin 0 := by
  have h := clean_marketing_row_metrics mRowEx
  refine ⟨h.1 ?_, h.2.2.1 ?_, h.2.2.2.2.2 ?_⟩ <;> norm_num [cleanMarketingRow, mRowEx]

/-- Claim C5: for every cleaned business row, aov = total_revenue/orders and
gross_margin = gross_profit/total_revenue*100, each 0 when its denominator
is non-positive. -/
theorem clean_business_row_metrics (r : BRow) :
    (0 < (cleanBusinessRow r).orders →
      (cleanBusinessRow r).aov =
        .fin ((cleanBusinessRow r).total_revenue / (cleanBusinessRow r).orders)) ∧
    ((cleanBusinessRow r).orders ≤ 0 → (cleanBusinessRow r).aov = .fin 0) ∧
    (0 < (cleanBusinessRow r).total_revenue →
      (cleanBusinessRow r).gross_margin =
        .fin ((cleanBusinessRow r).gross_profit / (cleanBusinessRow r).total_revenue * 100)) ∧
    ((cleanBusinessRow r).total_revenue ≤ 0 → (cleanBusinessRow r).gross_margin = .fin 0) :=
  ⟨fun h => aovOf_pos _ _ h, fun h => aovOf_nonpos _ _ h,
   fun h => grossMarginOf_pos _ _ h, fun h => grossMarginOf_nonpos _ _ h⟩

/-- Witness for C5 at a concrete row: positive orders take the ratio branch,
zero total revenue takes the zero branch. -/
theorem clean_business_row_metrics_witness :
    (cleanBusinessRow bRowEx).aov =
      .fin ((cleanBusinessRow bRowEx).total_revenue / (cleanBusinessRow bRowEx).orders) ∧
    (cleanBusinessRow bRowEx).gross_margin = .fin 0 := by
  have h := clean_business_row_metrics bRowEx
  refine ⟨h.1 ?_, h.2.2.2 ?_⟩ <;> norm_num [cleanBusinessRow, bRowEx]

/-- Claim C10: cleaning the business data adds repeat_orders = orders minus
new_orders, which is negative exactly when new_orders exceeds orders. -/
theorem clean_business_repeat_orders (r : BRow) :
    (cleanBusinessRow r).repeat_orders =
      (cleanBusinessRow r).orders - (cleanBusinessRow r).new_orders ∧
    ((cleanBusinessRow r).orders < (cleanBusinessRow r).new_orders →
      (cleanBusinessRow r).repeat_orders < 0) := by
  exact ⟨rfl, fun h => sub_neg.mpr h⟩

/-- Witness for C10 at a concrete row with new_orders greater than orders:
repeat_orders comes out negative. -/
theorem clean_business_repeat_orders_witness :
    (cleanBusinessRow bRowEx).repeat_orders =
      (cleanBusinessRow bRowEx).orders - (cleanBusinessRow bRowEx).new_orders ∧
    (cleanBusinessRow bRowEx).repeat_orders < 0 :=
  ⟨(clean_business_repeat_orders bRowEx).1,
   (clean_business_repeat_orders bRowEx).2 (by norm_num [cleanBusinessRow, bRowEx])⟩

/-- Claim C9: calling clean_marketing_data (resp. clean_business_data) while
the corresponding data attribute is still None raises ValueError and leaves
the processor state unchanged. -/
theorem clean_before_load_raises (st : PState) :
    (st.marketing_data = none →
      clean_marketing_data st = (st, some PyErr.valueError)) ∧
    (st.business_data = none →
      clean_business_data st = (st, some PyErr.valueError)) := by
  refine ⟨fun h => ?_, fun h => ?_⟩
  · simp [clean_marketing_data, h]
  · simp [clean_business_data, h]

/-- Witness for C9: on the fresh state both cleaners report ValueError and
return the state untouched. -/
theorem clean_before_load_raises_witness :
    clean_marketing_data emptyPState = (emptyPState, some PyErr.valueError) ∧
    clean_business_data emptyPState = (emptyPState, some PyErr.valueError) :=
  ⟨(clean_before_load_raises emptyPState).1 rfl,
   (clean_before_load_raises emptyPState).2 rfl⟩

/-- Claim C6 is false as stated: renaming to the canonical schema does NOT
happen in every load path.  DataProcessor.load_data only tags the channel
and performs no renaming, so a feed carrying the vendor column name
"impression" still carries it, and the canonical name "impressions" is
absent, while the load_real_data path of main.py does rename it. -/
theorem load_data_no_rename_counterexample :
    "impression" ∈ load_data_marketing_columns facebookRawColumns ∧
    "impressions" ∉ load_data_marketing_columns facebookRawColumns ∧
    "impressions" ∈ load_real_data_marketing_columns facebookRawColumns ∧
    "impression" ∉ load_real_data_marketing_columns facebookRawColumns := by
  decide

/-- Claim C6 amended: ingestion reads the four feeds and tags every row of
each channel feed with its source channel name in both load paths; the
renaming of vendor-specific columns to the canonical schema is performed
only by load_real_data in main.py, while DataProcessor.load_data adds the
channel tag and renames nothing. -/
theorem load_paths_tagging_and_renaming :
    (∀ ch rows, (tagChannel ch rows).map (fun r => r.channel) =
      rows.map (fun _ => ch)) ∧
    (∀ fb gg tk bz, load_real_data ⟨some fb, some gg, some tk, some bz⟩ =
      (some (tagChannel "Facebook" fb ++ tagChannel "Google" gg ++
             tagChannel "TikTok" tk), some bz)) ∧
    (∀ fb gg tk bz st, ∃ st1,
      load_data ⟨some fb, some gg, some tk, some bz⟩ st = (st1, true) ∧
      st1.marketing_data = some (.raw (tagChannel "Facebook" fb ++
        tagChannel "Google" gg ++ tagChannel "TikTok" tk)) ∧
      st1.business_data = some (.raw bz)) ∧
    marketing_column_mapping "impression" = "impressions" ∧
    marketing_column_mapping "attributed revenue" = "attributed_revenue" ∧
    business_column_mapping "# of orders" = "orders" ∧
    business_column_mapping "# of new orders" = "new_orders" ∧
    business_column_mapping "total revenue" = "total_revenue" ∧
    business_column_mapping "gross profit" = "gross_profit" ∧
    business_column_mapping "new customers" = "new_customers" ∧
    business_column_mapping "COGS" = "cogs" ∧
    (∀ cols : List String, load_real_data_marketing_columns cols =
      cols.map marketing_column_mapping ++ ["channel"]) ∧
    (∀ cols : List String, load_real_data_business_columns cols =
      cols.map business_column_mapping) ∧
    (∀ cols : List String, load_data_marketing_columns cols = cols ++ ["channel"]) ∧
    (∀ cols : List String, load_data_business_columns cols = cols) := by
  refine ⟨fun ch rows => ?_, fun fb gg tk bz => rfl, fun fb gg tk bz st => ?_,
    rfl, rfl, rfl, rfl, rfl, rfl, rfl, rfl, fun cols => ?_, fun cols => rfl,
    fun cols => rfl, fun cols => rfl⟩
  · simp only [tagChannel, List.map_map]
    rfl
  · exact ⟨_, rfl, rfl, rfl⟩
  · simp [load_real_data_marketing_columns, marketing_column_mapping]

/-- Claim C7: when any of the four input CSV files is missing, loading does
not raise: DataProcessor.load_data returns False, load_real_data of main.py
returns (None, None), and process_all halts right after loading without
performing cleaning, derivation, or combining. -/
theorem missing_file_halts (fs : FS) (st : PState)
    (h : fs.facebook = none ∨ fs.google = none ∨ fs.tiktok = none ∨
      fs.business = none) :
    (load_data fs st).2 = false ∧
    load_real_data fs = (none, none) ∧
    process_all fs st = ((load_data fs st).1, Except.ok false) := by
  obtain ⟨fb, gg, tk, bz⟩ := fs
  cases fb <;> cases gg <;> cases tk <;> cases bz <;>
    simp_all [load_data, load_real_data, process_all]

/-- Witness for C7 on a concrete directory missing the business feed. -/
theorem missing_file_halts_witness :
    (load_data fsMissingBusiness emptyPState).2 = false ∧
    load_real_data fsMissingBusiness = (none, none) ∧
    process_all fsMissingBusiness emptyPState =
      ((load_data fsMissingBusiness emptyPState).1, Except.ok false) :=
  missing_file_halts fsMissingBusiness emptyPState (Or.inr (Or.inr (Or.inr rfl)))

/-- The date column of the aggregated marketing data is the deduplicated
date column of the marketing rows. -/
theorem aggregate_dates_eq_dedup (rows : List CleanMRow) :
    (aggregate_marketing_data rows).map (fun dm => dm.date) =
      (rows.map (fun r => r.date)).dedup := by
  simp only [aggregate_marketing_data, List.map_map]
  exact List.map_id _

/-- Claim C2: aggregation before the join groups by date and sums the four
base columns over all campaigns of that date, then recomputes each daily
ratio from the sums: roas, ctr, cpc of an aggregate row are ratios of sums
whenever the summed denominator is positive. -/
theorem aggregate_ratio_of_sums (rows : List CleanMRow) (dm : DailyMarketing)
    (hdm : dm ∈ aggregate_marketing_data rows) :
    dm.date ∈ rows.map (fun r => r.date) ∧
    dm.impressions = sumOver rows dm.date (fun r => r.impressions) ∧
    dm.clicks = sumOver rows dm.date (fun r => r.clicks) ∧
    dm.spend = sumOver rows dm.date (fun r => r.spend) ∧
    dm.attributed_revenue = sumOver rows dm.date (fun r => r.attributed_revenue) ∧
    (0 < dm.spend → dm.roas =
      .fin (sumOver rows dm.date (fun r => r.attributed_revenue) /
        sumOver rows dm.date (fun r => r.spend))) ∧
    (0 < dm.impressions → dm.ctr =
      .fin (sumOver rows dm.date (fun r => r.clicks) /
        sumOver rows dm.date (fun r => r.impressions) * 100)) ∧
    (0 < dm.clicks → dm.cpc =
      .fin (sumOver rows dm.date (fun r => r.spend) /
        sumOver rows dm.date (fun r => r.clicks))) := by
  simp only [aggregate_marketing_data, List.mem_map] at hdm
  obtain ⟨d, hd, rfl⟩ := hdm
  refine ⟨List.mem_dedup.mp hd, rfl, rfl, rfl, rfl,
    fun h => roasOf_pos _ _ h, fun h => ctrOf_pos _ _ h, fun h => cpcOf_pos _ _ h⟩

/-- Witness for C2 on two campaigns sharing date 7: the daily aggregate
carries the column sums, and each daily ratio is the ratio of the sums. -/
theorem aggregate_ratio_of_sums_witness :
    dmEx ∈ aggregate_marketing_data marketingRowsEx ∧
    0 < dmEx.spend ∧ 0 < dmEx.impressions ∧ 0 < dmEx.clicks ∧
    dmEx.roas = .fin (sumOver marketingRowsEx dmEx.date (fun r => r.attributed_revenue) /
      sumOver marketingRowsEx dmEx.date (fun r => r.spend)) ∧
    dmEx.ctr = .fin (sumOver marketingRowsEx dmEx.date (fun r => r.clicks) /
      sumOver marketingRowsEx dmEx.date (fun r => r.impressions) * 100) ∧
    dmEx.cpc = .fin (sumOver marketingRowsEx dmEx.date (fun r => r.spend) /
      sumOver marketingRowsEx dmEx.date (fun r => r.clicks)) := by
  have hmem : dmEx ∈ aggregate_marketing_data marketingRowsEx := by
    simp [aggregate_marketing_data, marketingRowsEx, cleanMarketingRow, mRow2,
      mRow3, dmEx]
  have h := aggregate_ratio_of_sums marketingRowsEx dmEx hmem
  have hs : 0 < dmEx.spend := by
    norm_num [dmEx, dailyMarketingFor, sumOver, marketingRowsEx,
      cleanMarketingRow, mRow2, mRow3]
  have hi : 0 < dmEx.impressions := by
    norm_num [dmEx, dailyMarketingFor, sumOver, marketingRowsEx,
      cleanMarketingRow, mRow2, mRow3]
  have hc : 0 < dmEx.clicks := by
    norm_num [dmEx, dailyMarketingFor, sumOver, marketingRowsEx,
      cleanMarketingRow, mRow2, mRow3]
  exact ⟨hmem, hs, hi, hc, h.2.2.2.2.2.1 hs, h.2.2.2.2.2.2.1 hi,
    h.2.2.2.2.2.2.2 hc⟩

/-- A list of daily aggregates with pairwise distinct dates has at most one
entry per date. -/
theorem daily_filter_length_le_one (daily : List DailyMarketing) (d : ℕ)
    (h : (daily.map (fun dm => dm.date)).Nodup) :
    (daily.filter (fun dm => dm.date = d)).length ≤ 1 := by
  induction daily with
  | nil => simp
  | cons x t ih =>
    simp only [List.map_cons, List.nodup_cons, List.mem_map] at h
    obtain ⟨hx, ht⟩ := h
    by_cases hfx : x.date = d
    · have hnil : t.filter (fun dm => dm.date = d) = [] := by
        rw [List.filter_eq_nil_iff]
        intro y hy
        simp only [decide_eq_true_eq]
        intro hyd
        exact hx ⟨y, hy, by rw [hyd, hfx]⟩
      simp [List.filter_cons, hfx, hnil]
    · simp only [List.filter_cons, decide_eq_true_eq, hfx, if_false]
      exact ih (by simpa using ht)

/-- Each business row contributes exactly one row to the left merge when the
daily aggregates have pairwise distinct dates. -/
theorem leftMergeOne_length (daily : List DailyMarketing)
    (h : (daily.map (fun dm => dm.date)).Nodup) (b : CleanBRow) :
    (leftMergeOne daily b).length = 1 := by
  unfold leftMergeOne
  by_cases he : (daily.filter (fun dm => dm.date = b.date)).isEmpty
  · simp [he]
  · rw [if_neg he, List.length_map]
    have h1 := daily_filter_length_le_one daily b.date h
    have h0 : (daily.filter (fun dm => dm.date = b.date)).length ≠ 0 := by
      simpa [List.isEmpty_iff_length_eq_zero] using he
    omega

/-- Claim C8: grouping the marketing data by date yields at most one
aggregate row per date, so the left merge on date neither drops nor
duplicates business rows: the combined dataset has exactly one row per
business row. -/
theorem combine_row_count (mrows : List CleanMRow) (brows : List CleanBRow) :
    ((aggregate_marketing_data mrows).map (fun dm => dm.date)).Nodup ∧
    (combine_data mrows brows).length = brows.length := by
  have hnd : ((aggregate_marketing_data mrows).map (fun dm => dm.date)).Nodup := by
    rw [aggregate_dates_eq_dedup]
    exact List.nodup_dedup _
  refine ⟨hnd, ?_⟩
  unfold combine_data
  induction brows with
  | nil => rfl
  | cons b t ih =>
    simp only [List.flatMap_cons, List.length_append, ih,
      leftMergeOne_length _ hnd b, List.length_cons]
    omega

/-- Claim C3: the combined dataset is the business data left-joined on date
with the date-aggregated marketing sums; a business date with no marketing
activity gets all marketing columns filled with 0 rather than left missing,
and marketing_efficiency = total_revenue/spend and cpa = spend/new_customers
with each 0 when its denominator is non-positive. -/
theorem combine_left_join_zero_fill (mrows : List CleanMRow) (brows : List CleanBRow)
    (c : CombinedRow) (hc : c ∈ combine_data mrows brows) :
    (∃ b ∈ brows, c.date = b.date ∧ c.orders = b.orders ∧
      c.new_customers = b.new_customers ∧ c.total_revenue = b.total_revenue) ∧
    ((∀ dm ∈ aggregate_marketing_data mrows, dm.date ≠ c.date) →
      c.impressions = 0 ∧ c.clicks = 0 ∧ c.spend = 0 ∧ c.attributed_revenue = 0 ∧
      c.ctr = .fin 0 ∧ c.cpc = .fin 0 ∧ c.roas = .fin 0) ∧
    (0 < c.spend → c.marketing_efficiency = .fin (c.total_revenue / c.spend)) ∧
    (c.spend ≤ 0 → c.marketing_efficiency = .fin 0) ∧
    (0 < c.new_customers → c.cpa = .fin (c.spend / c.new_customers)) ∧
    (c.new_customers ≤ 0 → c.cpa = .fin 0) := by
  simp only [combine_data, List.mem_flatMap] at hc
  obtain ⟨b, hb, hcb⟩ := hc
  unfold leftMergeOne at hcb
  by_cases he : ((aggregate_marketing_data mrows).filter (fun dm => dm.date = b.date)).isEmpty
  · rw [if_pos he] at hcb
    simp only [List.mem_singleton] at hcb
    subst hcb
    exact ⟨⟨b, hb, rfl, rfl, rfl, rfl⟩, fun _ => ⟨rfl, rfl, rfl, rfl, rfl, rfl, rfl⟩,
      fun h => by exact marketingEfficiencyOf_pos b.total_revenue _ h,
      fun h => by exact marketingEfficiencyOf_nonpos b.total_revenue _ h,
      fun h => by exact cpaOf_pos _ b.new_customers h,
      fun h => by exact cpaOf_nonpos _ b.new_customers h⟩
  · rw [if_neg he] at hcb
    simp only [List.mem_map] at hcb
    obtain ⟨dm, hdm, hcb⟩ := hcb
    subst hcb
    have hdm' := List.mem_filter.mp hdm
    refine ⟨⟨b, hb, rfl, rfl, rfl, rfl⟩, fun hall => ?_,
      fun h => by exact marketingEfficiencyOf_pos b.total_revenue _ h,
      fun h => by exact marketingEfficiencyOf_nonpos b.total_revenue _ h,
      fun h => by exact cpaOf_pos _ b.new_customers h,
      fun h => by exact cpaOf_nonpos _ b.new_customers h⟩
    exact absurd (by simpa using hdm'.2) (hall dm hdm'.1)

/-- Witness for C3 on a business date (9) with no marketing activity: the
marketing columns of its combined row are zero-filled, and both derived
ratios fall back to 0 on their non-positive denominators. -/
theorem combine_left_join_zero_fill_witness :
    cEx ∈ combine_data marketingRowsEx businessRowsEx ∧
    cEx.impressions = 0 ∧ cEx.clicks = 0 ∧ cEx.spend = 0 ∧
    cEx.attributed_revenue = 0 ∧ cEx.ctr = .fin 0 ∧ cEx.cpc = .fin 0 ∧
    cEx.roas = .fin 0 ∧ cEx.marketing_efficiency = .fin 0 ∧ cEx.cpa = .fin 0 := by
  have hmem : cEx ∈ combine_data marketingRowsEx businessRowsEx := by
    norm_num [combine_data, leftMergeOne, aggregate_marketing_data, marketingRowsEx,
      businessRowsEx, cleanMarketingRow, mRow2, mRow3, cEx, bRowLate,
      cleanBusinessRow, dailyMarketingFor, List.filter]
  have h := combine_left_join_zero_fill marketingRowsEx businessRowsEx cEx hmem
  have hall : ∀ dm ∈ aggregate_marketing_data marketingRowsEx, dm.date ≠ cEx.date := by
    intro dm hdm
    norm_num [aggregate_marketing_data, marketingRowsEx, cleanMarketingRow,
      mRow2, mRow3] at hdm
    subst hdm
    norm_num [dailyMarketingFor, cEx, mkCombinedRow, cleanBusinessRow, bRowLate]
  have hz := h.2.1 hall
  have hsle : cEx.spend ≤ 0 := le_of_eq hz.2.2.1
  have hncle : cEx.new_customers ≤ 0 := by
    norm_num [cEx, mkCombinedRow, cleanBusinessRow, bRowLate]
  exact ⟨hmem, hz.1, hz.2.1, hz.2.2.1, hz.2.2.2.1, hz.2.2.2.2.1,
    hz.2.2.2.2.2.1, hz.2.2.2.2.2.2, h.2.2.2.1 hsle, h.2.2.2.2.2 hncle⟩

/-- Claim C1 is false as stated: with a single all-zero Facebook row, the
channel-level aggregation has impressions = clicks = spend = 0, and the
unguarded divisions of the metrics calculator make ctr, cpc and roas NaN
rather than 0; the campaign-level ctr fails the same way. -/
theorem calculator_metrics_nan_counterexample :
    (calculate_channel_metrics zeroRowsEx).map (fun m => m.impressions) = [0] ∧
    (calculate_channel_metrics zeroRowsEx).map (fun m => m.ctr) = [PFloat.nan] ∧
    (calculate_channel_metrics zeroRowsEx).map (fun m => m.cpc) = [PFloat.nan] ∧
    (calculate_channel_metrics zeroRowsEx).map (fun m => m.roas) = [PFloat.nan] ∧
    (calculate_campaign_metrics zeroRowsEx).map (fun m => m.ctr) = [PFloat.nan] ∧
    PFloat.nan ≠ PFloat.fin 0 := by
  refine ⟨?_, ?_, ?_, ?_, ?_, by decide⟩ <;>
    norm_num [calculate_channel_metrics, calculate_campaign_metrics,
      channelMetricsFor, campaignMetricsFor, channelSum, campaignSum,
      zeroRowsEx, cleanMarketingRow, zeroMRow, pdiv, PFloat.mul100, PFloat.round2]

/-- Claim C1 amended: every ratio metric derived with an np.where guard in
the data processor and in main.process_data (per-row and daily ctr, cpc,
roas, aov, gross_margin, marketing_efficiency, cpa) equals 0 when its
denominator is non-positive and is always finite (never NaN or infinity,
and the computation is total so it never raises); the channel- and
campaign-level ctr, cpc, roas of the metrics calculator are instead
computed by unguarded division and are NaN or a signed infinity, never a
finite value, whenever the corresponding summed denominator is zero. -/
theorem ratio_guard_amended :
    (∀ clicks impressions : ℚ, impressions ≤ 0 → ctrOf clicks impressions = .fin 0) ∧
    (∀ clicks impressions : ℚ, (ctrOf clicks impressions).isFin = true) ∧
    (∀ spend clicks : ℚ, clicks ≤ 0 → cpcOf spend clicks = .fin 0) ∧
    (∀ spend clicks : ℚ, (cpcOf spend clicks).isFin = true) ∧
    (∀ ar spend : ℚ, spend ≤ 0 → roasOf ar spend = .fin 0) ∧
    (∀ ar spend : ℚ, (roasOf ar spend).isFin = true) ∧
    (∀ tr orders : ℚ, orders ≤ 0 → aovOf tr orders = .fin 0) ∧
    (∀ tr orders : ℚ, (aovOf tr orders).isFin = true) ∧
    (∀ gp tr : ℚ, tr ≤ 0 → grossMarginOf gp tr = .fin 0) ∧
    (∀ gp tr : ℚ, (grossMarginOf gp tr).isFin = true) ∧
    (∀ tr spend : ℚ, spend ≤ 0 → marketingEfficiencyOf tr spend = .fin 0) ∧
    (∀ tr spend : ℚ, (marketingEfficiencyOf tr spend).isFin = true) ∧
    (∀ spend nc : ℚ, nc ≤ 0 → cpaOf spend nc = .fin 0) ∧
    (∀ spend nc : ℚ, (cpaOf spend nc).isFin = true) ∧
    (∀ rows m, m ∈ calculate_channel_metrics rows → m.impressions = 0 →
      m.ctr.isFin = false) ∧
    (∀ rows m, m ∈ calculate_channel_metrics rows → m.clicks = 0 →
      m.cpc.isFin = false) ∧
    (∀ rows m, m ∈ calculate_channel_metrics rows → m.spend = 0 →
      m.roas.isFin = false) ∧
    (∀ rows m, m ∈ calculate_campaign_metrics rows → m.impressions = 0 →
      m.ctr.isFin = false) ∧
    (∀ rows m, m ∈ calculate_campaign_metrics rows → m.clicks = 0 →
      m.cpc.isFin = false) ∧
    (∀ rows m, m ∈ calculate_campaign_metrics rows → m.spend = 0 →
      m.roas.isFin = false) := by
  refine ⟨fun a b h => ctrOf_nonpos a b h, fun a b => ctrOf_isFin a b,
    fun a b h => cpcOf_nonpos a b h, fun a b => cpcOf_isFin a b,
    fun a b h => roasOf_nonpos a b h, fun a b => roasOf_isFin a b,
    fun a b h => aovOf_nonpos a b h, fun a b => aovOf_isFin a b,
    fun a b h => grossMarginOf_nonpos a b h, fun a b => grossMarginOf_isFin a b,
    fun a b h => marketingEfficiencyOf_nonpos a b h,
    fun a b => marketingEfficiencyOf_isFin a b,
    fun a b h => cpaOf_nonpos a b h, fun a b => cpaOf_isFin a b,
    ?_, ?_, ?_, ?_, ?_, ?_⟩ <;>
  · intro rows m hm h0
    simp only [calculate_channel_metrics, calculate_campaign_metrics,
      List.mem_map] at hm
    obtain ⟨k, hk, rfl⟩ := hm
    simp only [channelMetricsFor, campaignMetricsFor] at h0 ⊢
    rw [round2_isFin]
    first
      | (rw [mul100_isFin, h0]; exact pdiv_zero_isFin_false _)
      | (rw [h0]; exact pdiv_zero_isFin_false _)

/-- Witness for the amended C1: each guarded metric at a concrete
non-positive denominator is 0 and at a positive one is finite, while the
channel and campaign metrics of the all-zero row are non-finite. -/
theorem ratio_guard_amended_witness :
    ctrOf 5 (-3) = .fin 0 ∧ (ctrOf 5 7).isFin = true ∧
    cpcOf 4 0 = .fin 0 ∧ (cpcOf 4 2).isFin = true ∧
    roasOf 9 (-1) = .fin 0 ∧ (roasOf 9 3).isFin = true ∧
    aovOf 8 0 = .fin 0 ∧ (aovOf 8 2).isFin = true ∧
    grossMarginOf 6 (-2) = .fin 0 ∧ (grossMarginOf 6 12).isFin = true ∧
    marketingEfficiencyOf 11 0 = .fin 0 ∧ (marketingEfficiencyOf 11 5).isFin = true ∧
    cpaOf 13 (-4) = .fin 0 ∧ (cpaOf 13 2).isFin = true ∧
    (channelMetricsFor zeroRowsEx "Facebook").ctr.isFin = false ∧
    (channelMetricsFor zeroRowsEx "Facebook").cpc.isFin = false ∧
    (channelMetricsFor zeroRowsEx "Facebook").roas.isFin = false ∧
    (campaignMetricsFor zeroRowsEx ("Facebook", "Camp")).ctr.isFin = false ∧
    (campaignMetricsFor zeroRowsEx ("Facebook", "Camp")).cpc.isFin = false ∧
    (campaignMetricsFor zeroRowsEx ("Facebook", "Camp")).roas.isFin = false := by
  obtain ⟨h1, h2, h3, h4, h5, h6, h7, h8, h9, h10, h11, h12, h13, h14,
    h15, h16, h17, h18, h19, h20⟩ := ratio_guard_amended
  have hchmem : channelMetricsFor zeroRowsEx "Facebook" ∈
      calculate_channel_metrics zeroRowsEx := by
    norm_num [calculate_channel_metrics, zeroRowsEx, cleanMarketingRow, zeroMRow]
  have hcamem : campaignMetricsFor zeroRowsEx ("Facebook", "Camp") ∈
      calculate_campaign_metrics zeroRowsEx := by
    norm_num [calculate_campaign_metrics, zeroRowsEx, cleanMarketingRow, zeroMRow]
  refine ⟨h1 5 (-3) (by norm_num), h2 5 7, h3 4 0 (by norm_num), h4 4 2,
    h5 9 (-1) (by norm_num), h6 9 3, h7 8 0 (by norm_num), h8 8 2,
    h9 6 (-2) (by norm_num), h10 6 12, h11 11 0 (by norm_num), h12 11 5,
    h13 13 (-4) (by norm_num), h14 13 2,
    h15 _ _ hchmem ?_, h16 _ _ hchmem ?_, h17 _ _ hchmem ?_,
    h18 _ _ hcamem ?_, h19 _ _ hcamem ?_, h20 _ _ hcamem ?_⟩ <;>
  norm_num [channelMetricsFor, campaignMetricsFor, channelSum, campaignSum,
    zeroRowsEx, cleanMarketingRow, zeroMRow]

end BIDashboard
